import Mathlib

/-!
Verification of `backend/gig_router/middleware.py`
(`CsrfExemptApiMiddleware`), a Django middleware that marks requests
whose path begins with `/api/` as exempt from CSRF checking.

The middleware body is:

    def process_view(self, request, view_func, view_args, view_kwargs):
        if request.path.startswith('/api/'):
            setattr(request, '_dont_enforce_csrf_checks', True)
        return None

We embed the request as a record with the two fields the middleware can
observe or touch (`path` and the `_dont_enforce_csrf_checks` marker) plus
an opaque remainder `other : α` standing for every other request field,
and `process_view` as a pure state transformer returning the updated
request together with the middleware's return value (`None`, i.e. no
response of its own).
-/

/-- Python's `str.startswith(pre)`: `true` iff the code-point sequence of
`pre` is a prefix of the code-point sequence of `s` (exact, case-sensitive
comparison; no wildcard or pattern support). -/
def str_startswith (s pre : String) : Bool :=
  pre.data.isPrefixOf s.data

/-- The gate's decision, the condition on line 12 of the source:
`request.path.startswith('/api/')` abstracted over the path string. -/
def gate_decide (p : String) : Bool :=
  str_startswith p "/api/"

/-- The Django `HttpRequest` as seen by this middleware: its `path`
string, the mutable `_dont_enforce_csrf_checks` exemption marker
(modelled as the field `dont_enforce_csrf_checks`; Django treats a
missing attribute as unset/false), and all remaining request fields,
which the middleware never inspects, bundled opaquely as `other`. -/
structure Request (α : Type) where
  path : String
  dont_enforce_csrf_checks : Bool
  other : α
deriving Repr, DecidableEq

/-- `CsrfExemptApiMiddleware.process_view`: if the request path starts
with the literal `/api/`, set the exemption marker via `setattr`
(modelled as a record update); otherwise leave the request unchanged.
Either way return `None` (no response), handing control back to Django.
The `view_func`, `view_args` and `view_kwargs` parameters are received,
as in the source, and never used. -/
def process_view {α V A K R : Type} (request : Request α)
    (view_func : V) (view_args : A) (view_kwargs : K) :
    Request α × Option R :=
  if gate_decide request.path then
    ({ request with dont_enforce_csrf_checks := true }, none)
  else
    (request, none)

/-- The request-state transition of one gate invocation (the view
arguments do not affect the request state, so they are instantiated with
`()`; the response slot is likewise irrelevant to the state). -/
def gate_step {α : Type} (r : Request α) : Request α :=
  (process_view (R := Unit) r () () ()).1

/-- `n` successive gate invocations on the same request. -/
def gate_iter {α : Type} : Nat → Request α → Request α
  | 0, r => r
  | n + 1, r => gate_iter n (gate_step r)

/-- `str_startswith s pre` holds exactly when `s` is `pre` followed by
some (possibly empty) suffix string. -/
theorem str_startswith_iff (s pre : String) :
    str_startswith s pre = true ↔ ∃ rest : String, s = pre ++ rest := by
  unfold str_startswith
  rw [ List.isPrefixOf_iff_prefix]
  constructor
  · rintro ⟨t, ht⟩
    exact ⟨⟨t⟩, String.ext (by simpa [String.data_append] using ht.symm)⟩
  · rintro ⟨rest, rfl⟩
    exact ⟨rest.data, (String.data_append pre rest).symm⟩

/-- C1: the gate decides exempt exactly for paths that start with the
literal, case-sensitive `/api/`; in particular `/api/` itself is exempt
while `/api` and `/API/users` are not. -/
theorem gate_decide_iff_api :
    (∀ p : String, gate_decide p = true ↔ ∃ rest : String, p = "/api/" ++ rest)
      ∧ gate_decide "/api/" = true
      ∧ gate_decide "/api" = false
      ∧ gate_decide "/API/users" = false :=
  ⟨fun p => str_startswith_iff p "/api/", by decide, by decide, by decide⟩

/-- Any string shorter than 5 characters cannot be `/api/` followed by a
suffix. -/
theorem not_api_of_short (p : String) (hp : p.length < 5) :
    ¬ ∃ rest : String, p = "/api/" ++ rest := by
  rintro ⟨rest, rfl⟩
  rw [String.length_append] at hp
  have h5 : ("/api/" : String).length = 5 := rfl
  omega

/-- C2: on a request whose path does not start with `/api/`, the gate
performs no mutation at all: the returned request equals the input
request in every field, the exemption marker included. -/
theorem process_view_non_api_frame {α V A K R : Type}
    (r : Request α) (v : V) (a : A) (k : K)
    (h : ¬ ∃ rest : String, r.path = "/api/" ++ rest) :
    (process_view (R := R) r v a k).1 = r := by
  have hd : gate_decide r.path = false := by
    rw [← Bool.not_eq_true, gate_decide]
    exact fun hc => h ((str_startswith_iff r.path "/api/").mp hc)
  simp [process_view, hd]

/-- Witness for C2 at the concrete request with path `/`. -/
theorem process_view_non_api_frame_witness :
    (process_view (R := Unit) (Request.mk "/" false (0 : Nat)) () () ()).1
      = Request.mk "/" false (0 : Nat) :=
  process_view_non_api_frame (Request.mk "/" false (0 : Nat)) () () ()
    (not_api_of_short "/" (by decide))

/-- C3: on a request whose path starts with `/api/`, the gate sets the
exemption marker to `true` and changes nothing else: the result is the
input request with exactly the marker field updated. -/
theorem process_view_api_marks_only {α V A K R : Type}
    (r : Request α) (v : V) (a : A) (k : K)
    (h : ∃ rest : String, r.path = "/api/" ++ rest) :
    (process_view (R := R) r v a k).1
      = { r with dont_enforce_csrf_checks := true } := by
  have hd : gate_decide r.path = true :=
    (str_startswith_iff r.path "/api/").mpr h
  simp [process_view, hd]

/-- Witness for C3 at the concrete request with path `/api/users`. -/
theorem process_view_api_marks_only_witness :
    (process_view (R := Unit) (Request.mk "/api/users" false (37 : Nat)) () () ()).1
      = Request.mk "/api/users" true (37 : Nat) :=
  process_view_api_marks_only (Request.mk "/api/users" false (37 : Nat)) () () ()
    ⟨"users", by decide⟩

/-- C4: the gate is idempotent on the request state: invoking it twice
in succession yields the same request (and hence the same exemption
marker) as invoking it once, for every request. -/
theorem process_view_idempotent {α V A K R : Type}
    (r : Request α) (v : V) (a : A) (k : K) :
    (process_view (R := R) (process_view (R := R) r v a k).1 v a k).1
      = (process_view (R := R) r v a k).1 := by
  have hd : gate_decide r.path = true ∨ gate_decide r.path = false := by
    cases gate_decide r.path
    · exact Or.inr rfl
    · exact Or.inl rfl
  rcases hd with h | h <;> simp [process_view, h]

/-- C5: the gate's decision is a total boolean function of the path —
on every string it evaluates to `true` or to `false` — and any path not
starting with `/api/` yields `false`; in particular the empty string
yields `false`. -/
theorem gate_decide_total_default_false :
    (∀ p : String, gate_decide p = true ∨ gate_decide p = false)
      ∧ (∀ p : String,
          (¬ ∃ rest : String, p = "/api/" ++ rest) → gate_decide p = false)
      ∧ gate_decide "" = false := by
  refine ⟨fun p => ?_, fun p h => ?_, by decide⟩
  · cases gate_decide p
    · exact Or.inr rfl
    · exact Or.inl rfl
  · rw [← Bool.not_eq_true]
    exact fun hc => h ((str_startswith_iff p "/api/").mp hc)

/-- Witness for C5 at the concrete path `/x`. -/
theorem gate_decide_total_default_false_witness :
    gate_decide "/x" = false :=
  gate_decide_total_default_false.2.1 "/x" (not_api_of_short "/x" (by decide))

/-- C6: the marker is monotone: once the exemption marker is `true`, it
stays `true` through any further sequence of gate invocations — the gate
never writes `false` to it. -/
theorem marker_persists_through_iterations {α : Type}
    (n : Nat) (r : Request α) (h : r.dont_enforce_csrf_checks = true) :
    (gate_iter n r).dont_enforce_csrf_checks = true := by
  induction n generalizing r with
  | zero => exact h
  | succ m ih =>
      apply ih
      unfold gate_step process_view
      split <;> simp [h]

/-- Witness for C6: two further invocations on an already-exempt request
with a non-API path keep the marker `true`. -/
theorem marker_persists_through_iterations_witness :
    (gate_iter 2 (Request.mk "/dashboard/" true (0 : Nat))).dont_enforce_csrf_checks
      = true :=
  marker_persists_through_iterations 2
    (Request.mk "/dashboard/" true (0 : Nat)) rfl

/-- C7: `process_view` always returns `None`: the gate never produces a
response itself, on API and non-API paths alike. -/
theorem process_view_returns_none {α V A K R : Type}
    (r : Request α) (v : V) (a : A) (k : K) :
    (process_view (R := R) r v a k).2 = none := by
  unfold process_view
  split <;> rfl

/-- C8: the gate is a deterministic, stateless function of the path and
prior marker alone: two invocations on requests agreeing on `path` and
on the marker — with arbitrary, even differently-typed, other fields,
view callables and view arguments — produce equal final markers and
equal return values. -/
theorem process_view_deterministic {α β V₁ A₁ K₁ V₂ A₂ K₂ R : Type}
    (r₁ : Request α) (r₂ : Request β)
    (v₁ : V₁) (a₁ : A₁) (k₁ : K₁) (v₂ : V₂) (a₂ : A₂) (k₂ : K₂)
    (hp : r₁.path = r₂.path)
    (hm : r₁.dont_enforce_csrf_checks = r₂.dont_enforce_csrf_checks) :
    ((process_view (R := R) r₁ v₁ a₁ k₁).1).dont_enforce_csrf_checks
        = ((process_view (R := R) r₂ v₂ a₂ k₂).1).dont_enforce_csrf_checks
      ∧ (process_view (R := R) r₁ v₁ a₁ k₁).2
        = (process_view (R := R) r₂ v₂ a₂ k₂).2 := by
  unfold process_view
  rw [hp]
  split <;> simp [hm]

/-- Witness for C8: same path and prior marker, different view callables,
arguments and other fields; equal outcomes. -/
theorem process_view_deterministic_witness :
    ((process_view (R := Unit) (Request.mk "/api/x" false (0 : Nat)) (1 : Nat) () ()).1).dont_enforce_csrf_checks
        = ((process_view (R := Unit) (Request.mk "/api/x" false "other") "f" true (5 : Nat)).1).dont_enforce_csrf_checks
      ∧ (process_view (R := Unit) (Request.mk "/api/x" false (0 : Nat)) (1 : Nat) () ()).2
        = (process_view (R := Unit) (Request.mk "/api/x" false "other") "f" true (5 : Nat)).2 :=
  process_view_deterministic
    (Request.mk "/api/x" false (0 : Nat)) (Request.mk "/api/x" false "other")
    (1 : Nat) () () "f" true (5 : Nat) rfl rfl

/-- C9: the gate preserves a pre-existing exemption: if the marker is
already `true` before the call, it is still `true` after, for every
path, API or not. -/
theorem process_view_preserves_marker {α V A K R : Type}
    (r : Request α) (v : V) (a : A) (k : K)
    (h : r.dont_enforce_csrf_checks = true) :
    ((process_view (R := R) r v a k).1).dont_enforce_csrf_checks = true := by
  unfold process_view
  split <;> simp [h]

/-- Witness for C9 at a non-API path with the marker already set. -/
theorem process_view_preserves_marker_witness :
    ((process_view (R := Unit) (Request.mk "/admin/" true (0 : Nat)) () () ()).1).dont_enforce_csrf_checks
      = true :=
  process_view_preserves_marker (Request.mk "/admin/" true (0 : Nat)) () () () rfl
